import Mathlib

/-!
# Verification of the EIS receiver (`src/input/eis.rs`)

Shallow embedding of the EIS (Emulated Input Server) receiver of
cosmic-ext-comp-rdp: the connection admission controller
(`EisState::add_connection`), the request translator
(`process_eis_request`) and the keymap provider
(`prepare_xkb_keymap_fd`).

Floating-point inputs coming from the peer are modelled by `EFloat`
(a finite rational or one of NaN / +inf / -inf), which is exactly the
information the code inspects (`is_finite`) before any arithmetic.
Host injection calls are modelled as a trace (`List HostCall`) emitted
by the translator.
-/

namespace CosmicEis

/-- Maximum number of concurrent EIS connections allowed
(`MAX_EIS_CONNECTIONS` in `eis.rs`). -/
def MAX_EIS_CONNECTIONS : Nat := 8

/-- Maximum valid evdev keycode (`MAX_EVDEV_KEYCODE = 0x2FF`). -/
def MAX_EVDEV_KEYCODE : Nat := 0x2FF

/-- Maximum touch slot ID (`MAX_TOUCH_ID = 256`). -/
def MAX_TOUCH_ID : Nat := 256

/-- A peer-supplied double: either a finite value (modelled as a rational)
or one of the non-finite IEEE values. This is exactly the split the code
makes with `f64::is_finite`. -/
inductive EFloat where
  | finite (q : ℚ)
  | nan
  | posInf
  | negInf
deriving DecidableEq, Repr

/-- `f64::is_finite`. -/
def EFloat.isFinite : EFloat → Bool
  | .finite _ => true
  | _ => false

/-- The rational value of a finite `EFloat`; only ever used under an
`isFinite` guard, mirroring the code which only does arithmetic after
the finiteness check. -/
def EFloat.toRat : EFloat → ℚ
  | .finite q => q
  | _ => 0

/-- An output geometry: `smithay::utils::Rectangle` with integer location
`(x0, y0)` and integer size `(w, h)`. -/
structure Rect where
  x0 : Int
  y0 : Int
  w : Int
  h : Int
deriving DecidableEq, Repr

/-- `Rectangle::<f64>::contains(point)`: half-open on the upper edges. -/
def Rect.containsPt (r : Rect) (x y : ℚ) : Bool :=
  decide ((r.x0 : ℚ) ≤ x) && decide (x < ((r.x0 + r.w : Int) : ℚ)) &&
  decide ((r.y0 : ℚ) ≤ y) && decide (y < ((r.y0 + r.h : Int) : ℚ))

/-- `f64::clamp(lo, hi)` (for `lo ≤ hi`). -/
def ratClamp (v lo hi : ℚ) : ℚ := max lo (min v hi)

/-- Clamp a point into `[x0, x0+w-1] × [y0, y0+h-1]`, as the relative-motion
branch does with `position.x.clamp(geom.loc.x, geom.loc.x + geom.size.w - 1)`
and likewise for `y`. -/
def clampToRect (r : Rect) (x y : ℚ) : ℚ × ℚ :=
  (ratClamp x ((r.x0 : ℚ)) (((r.x0 + r.w - 1 : Int) : ℚ)),
   ratClamp y ((r.y0 : ℚ)) (((r.y0 + r.h - 1 : Int) : ℚ)))

/-! ## EIS requests

Each request struct carries the fields the translator reads, plus the
peer-supplied `time` field that the wire protocol carries on input events
(the translator never reads it). -/

/-- `EisRequest::KeyboardKey`: `press` is `state == KeyState::Press`. -/
structure KeyboardKeyReq where
  key : Nat
  press : Bool
  time : Nat
deriving DecidableEq, Repr

/-- `EisRequest::PointerMotion`. -/
structure PointerMotionReq where
  dx : EFloat
  dy : EFloat
  time : Nat
deriving DecidableEq, Repr

/-- `EisRequest::PointerMotionAbsolute`. -/
structure PointerMotionAbsReq where
  dx_absolute : EFloat
  dy_absolute : EFloat
  time : Nat
deriving DecidableEq, Repr

/-- `EisRequest::Button`: `press` is `state == ButtonState::Press`. -/
structure ButtonReq where
  button : Nat
  press : Bool
  time : Nat
deriving DecidableEq, Repr

/-- `EisRequest::ScrollDelta`. -/
structure ScrollDeltaReq where
  dx : EFloat
  dy : EFloat
  time : Nat
deriving DecidableEq, Repr

/-- `EisRequest::TouchDown`. -/
structure TouchDownReq where
  touch_id : Nat
  x : EFloat
  y : EFloat
  time : Nat
deriving DecidableEq, Repr

/-- `EisRequest::TouchMotion`. -/
structure TouchMotionReq where
  touch_id : Nat
  x : EFloat
  y : EFloat
  time : Nat
deriving DecidableEq, Repr

/-- `EisRequest::TouchUp`. -/
structure TouchUpReq where
  touch_id : Nat
  time : Nat
deriving DecidableEq, Repr

/-- `EisRequest::TouchCancel`. -/
structure TouchCancelReq where
  touch_id : Nat
  time : Nat
deriving DecidableEq, Repr

/-- `EisRequest::Bind`: `hasKeyboardCap` is
`bind.capabilities.contains(DeviceCapability::Keyboard)`. -/
structure BindReq where
  hasKeyboardCap : Bool
deriving DecidableEq, Repr

/-- The typed EIS requests handled by `process_eis_request`. -/
inductive EisRequest where
  | keyboardKey (e : KeyboardKeyReq)
  | pointerMotion (e : PointerMotionReq)
  | pointerMotionAbsolute (e : PointerMotionAbsReq)
  | button (e : ButtonReq)
  | scrollDelta (e : ScrollDeltaReq)
  | touchDown (e : TouchDownReq)
  | touchMotion (e : TouchMotionReq)
  | touchUp (e : TouchUpReq)
  | touchCancel (e : TouchCancelReq)
  | disconnect
  | bind (e : BindReq)
  | deviceStartEmulating
  | deviceStopEmulating
  | frame
deriving DecidableEq, Repr

/-! ## Keymap provider (`prepare_xkb_keymap_fd`) -/

/-- The host-side facts `prepare_xkb_keymap_fd` depends on: the result of
`xkb::Keymap::new_from_names` followed by `get_as_string` (the keymap text
as bytes, `none` when compilation fails), and the success of the
`memfd_create`, `write_all` and `fcntl(F_ADD_SEALS)` syscalls. -/
structure XkbEnv where
  compiledKeymap : Option (List Nat)
  memfdCreateOk : Bool
  writeOk : Bool
  sealOk : Bool
deriving DecidableEq, Repr

/-- An anonymous shareable memory region (memfd): its byte content and
whether the seals were applied. -/
structure MemRegion where
  content : List Nat
  isSealed : Bool
deriving DecidableEq, Repr

/-- `prepare_xkb_keymap_fd`: compile the keymap (`?` returns `none` on
failure), compute `size = (len + 1) as u32`, create a memfd, write the
keymap bytes plus a single 0 terminator, best-effort seal (the `fcntl`
result is discarded), and return the fd with the size. -/
def prepare_xkb_keymap_fd (env : XkbEnv) : Option (MemRegion × Nat) :=
  match env.compiledKeymap with
  | none => none
  | some keymap_bytes =>
    let size := (keymap_bytes.length + 1) % 2 ^ 32
    if !env.memfdCreateOk then none
    else if !env.writeOk then none
    else some ({ content := keymap_bytes ++ [0], isSealed := env.sealOk }, size)

/-! ## Host state and injection trace -/

/-- The host-compositor facts the translator reads: the monotonic clock
(`state.common.clock.now().as_millis()`), presence of keyboard / pointer /
touch handles on the last-active seat, the pointer's current location,
the output geometries (`shell.outputs()`, in iteration order), the active
output's geometry (`seat.active_output()`), the xkb environment, and
whether the freshly bound device exposes the `eis::Keyboard` interface. -/
structure HostState where
  clockNowMillis : Nat
  hasKeyboard : Bool
  hasPointer : Bool
  hasTouch : Bool
  pointerX : ℚ
  pointerY : ℚ
  outputs : List Rect
  activeOutput : Rect
  xkb : XkbEnv
  deviceHasKeyboardInterface : Bool
deriving DecidableEq, Repr

/-- One call made by the translator on the host interfaces (Smithay
injection calls, plus the two EIS device announcements emitted by the
`Bind` branch). -/
inductive HostCall where
  | keyInput (keycode : Nat) (press : Bool) (time : Nat)
  | pointerMotion (x y : ℚ) (time : Nat)
  | pointerButton (button : Nat) (press : Bool) (time : Nat)
  | pointerAxis (vertical : Option ℚ) (horizontal : Option ℚ) (time : Nat)
  | pointerFrame
  | touchDown (id : Nat) (x y : ℚ) (time : Nat)
  | touchMotion (id : Nat) (x y : ℚ) (time : Nat)
  | touchUp (id : Nat) (time : Nat)
  | touchCancel
  | touchFrame
  | keymapTransfer (size : Nat)
  | deviceResumed
deriving DecidableEq, Repr

/-- The timestamp carried by a host call, when it carries one. -/
def HostCall.time? : HostCall → Option Nat
  | .keyInput _ _ t => some t
  | .pointerMotion _ _ t => some t
  | .pointerButton _ _ t => some t
  | .pointerAxis _ _ t => some t
  | .touchDown _ _ _ t => some t
  | .touchMotion _ _ _ t => some t
  | .touchUp _ t => some t
  | _ => none

/-- Is a call a key injection (`keyboard.input`)? -/
def HostCall.isKeyInjection : HostCall → Bool
  | .keyInput _ _ _ => true
  | _ => false

/-- The output whose geometry contains the target position, falling back to
the active output:
`shell.outputs().find(|o| o.geometry().to_f64().contains(position))
  .unwrap_or_else(|| seat.active_output())`. -/
def chosenOutput (st : HostState) (x y : ℚ) : Rect :=
  (st.outputs.find? (fun o => o.containsPt x y)).getD st.activeOutput

/-- The unclamped target position of a relative motion:
current pointer location plus the deltas. -/
def relTargetPos (st : HostState) (e : PointerMotionReq) : ℚ × ℚ :=
  (st.pointerX + e.dx.toRat, st.pointerY + e.dy.toRat)

/-- The output a relative motion is clamped to. -/
def relOutput (st : HostState) (e : PointerMotionReq) : Rect :=
  chosenOutput st (relTargetPos st e).1 (relTargetPos st e).2

/-- The clamped location a relative motion injects. -/
def relClampedPos (st : HostState) (e : PointerMotionReq) : ℚ × ℚ :=
  clampToRect (relOutput st e) (relTargetPos st e).1 (relTargetPos st e).2

/-- `process_eis_request`, as the trace of host calls each branch performs.

Branch-by-branch correspondence with `eis.rs`:
* `KeyboardKey`: keycode bound check, then one `keyboard.input` (no frame).
* `PointerMotion`: finiteness check; target = current location + delta,
  clamped to the chosen output's `[x0, x0+w-1] × [y0, y0+h-1]`;
  `pointer.motion` then `pointer.frame`.
* `PointerMotionAbsolute`: finiteness check; the code hit-tests an output
  for surface focus but injects `(x, y)` directly, with no clamping.
* `Button`: code bound check, `pointer.button` then `pointer.frame`.
* `ScrollDelta`: finiteness check; an axis frame with a vertical
  (resp. horizontal) component only when `dy.abs() > 0.0`
  (resp. `dx.abs() > 0.0`); `pointer.axis` then `pointer.frame`.
* `TouchDown` / `TouchMotion`: touch-id bound check, then finiteness
  check, then `touch_handle.down` / `.motion` plus `.frame`.
* `TouchUp` / `TouchCancel`: no validation; `.up` / `.cancel` plus
  `.frame`.
* `Disconnect`: logs only — no host call and, notably, no change to the
  admission counter.
* `Bind`: the keymap fd is prepared only when the bind requests keyboard
  capability; inside `add_device`'s configuration closure (which runs
  before `device.done()`) the keymap is transferred when the fd exists and
  the device exposes the keyboard interface; `device.resumed()` follows.
* `DeviceStartEmulating` / `DeviceStopEmulating` / `Frame`: no-ops. -/
def process_eis_request (st : HostState) (req : EisRequest) : List HostCall :=
  let time := st.clockNowMillis
  match req with
  | .keyboardKey e =>
    if MAX_EVDEV_KEYCODE < e.key then []
    else if st.hasKeyboard then
      [.keyInput e.key e.press time]
    else []
  | .pointerMotion e =>
    if !(e.dx.isFinite && e.dy.isFinite) then []
    else if st.hasPointer then
      [.pointerMotion (relClampedPos st e).1 (relClampedPos st e).2 time,
       .pointerFrame]
    else []
  | .pointerMotionAbsolute e =>
    if !(e.dx_absolute.isFinite && e.dy_absolute.isFinite) then []
    else if st.hasPointer then
      [.pointerMotion e.dx_absolute.toRat e.dy_absolute.toRat time,
       .pointerFrame]
    else []
  | .button e =>
    if MAX_EVDEV_KEYCODE < e.button then []
    else if st.hasPointer then
      [.pointerButton e.button e.press time, .pointerFrame]
    else []
  | .scrollDelta e =>
    if !(e.dx.isFinite && e.dy.isFinite) then []
    else if st.hasPointer then
      [.pointerAxis (if 0 < |e.dy.toRat| then some e.dy.toRat else none)
                    (if 0 < |e.dx.toRat| then some e.dx.toRat else none)
                    time,
       .pointerFrame]
    else []
  | .touchDown e =>
    if MAX_TOUCH_ID < e.touch_id then []
    else if !(e.x.isFinite && e.y.isFinite) then []
    else if st.hasTouch then
      [.touchDown e.touch_id e.x.toRat e.y.toRat time, .touchFrame]
    else []
  | .touchMotion e =>
    if MAX_TOUCH_ID < e.touch_id then []
    else if !(e.x.isFinite && e.y.isFinite) then []
    else if st.hasTouch then
      [.touchMotion e.touch_id e.x.toRat e.y.toRat time, .touchFrame]
    else []
  | .touchUp e =>
    if st.hasTouch then [.touchUp e.touch_id time, .touchFrame] else []
  | .touchCancel _ =>
    if st.hasTouch then [.touchCancel, .touchFrame] else []
  | .disconnect => []
  | .bind e =>
    let keymap_fd := if e.hasKeyboardCap then prepare_xkb_keymap_fd st.xkb else none
    (match keymap_fd with
     | some (_, size) =>
       if st.deviceHasKeyboardInterface then [.keymapTransfer size] else []
     | none => []) ++ [.deviceResumed]
  | .deviceStartEmulating => []
  | .deviceStopEmulating => []
  | .frame => []

/-- Replace a request's peer-supplied time field (identity on requests that
carry none). -/
def setReqTime : EisRequest → Nat → EisRequest
  | .keyboardKey e, t => .keyboardKey { e with time := t }
  | .pointerMotion e, t => .pointerMotion { e with time := t }
  | .pointerMotionAbsolute e, t => .pointerMotionAbsolute { e with time := t }
  | .button e, t => .button { e with time := t }
  | .scrollDelta e, t => .scrollDelta { e with time := t }
  | .touchDown e, t => .touchDown { e with time := t }
  | .touchMotion e, t => .touchMotion { e with time := t }
  | .touchUp e, t => .touchUp { e with time := t }
  | .touchCancel e, t => .touchCancel { e with time := t }
  | .disconnect, _ => .disconnect
  | .bind e, _ => .bind e
  | .deviceStartEmulating, _ => .deviceStartEmulating
  | .deviceStopEmulating, _ => .deviceStopEmulating
  | .frame, _ => .frame

/-! ## Admission controller (`EisState::add_connection`)

`add_connection` is only ever called from the calloop channel callback on
the compositor's event-loop thread (`src/dbus/eis.rs`), so its
load / fetch_add / fetch_sub sequence on `active_connections` is modelled
sequentially. -/

/-- The two fallible setup steps of `add_connection`:
`eis::Context::new(socket)` and `evlh.insert_source(...)`. -/
structure AddConnEnv where
  contextOk : Bool
  insertOk : Bool
deriving DecidableEq, Repr

/-- Observable milestones of one `add_connection` call. `contextAttempt`
marks the point where `eis::Context::new` is invoked (the start of any
protocol processing for the socket). -/
inductive AdmEvent where
  | rejected
  | contextAttempt
  | sourceRegistered
deriving DecidableEq, Repr

/-- `EisState::add_connection`: returns the final `active_connections`
value, whether a live session was registered, and the milestone trace.
Mirrors the code: load-and-compare against `MAX_EIS_CONNECTIONS`
(rejecting with only a warning), `fetch_add(1)`, then `fetch_sub(1)` on
either setup failure (written `+ 1 - 1` to mirror the paired atomics). -/
def add_connection (count : Nat) (env : AddConnEnv) : Nat × Bool × List AdmEvent :=
  if MAX_EIS_CONNECTIONS ≤ count then
    (count, false, [.rejected])
  else
    if env.contextOk then
      if env.insertOk then
        (count + 1, true, [.contextAttempt, .sourceRegistered])
      else
        (count + 1 - 1, false, [.contextAttempt])
    else
      (count + 1 - 1, false, [.contextAttempt])

/-- An admission-relevant happening: a new socket handed to
`add_connection`, or the close of a live session (client `Disconnect`
request, end-of-stream, or EIS protocol error). -/
inductive AdmOp where
  | connect (env : AddConnEnv)
  | close
deriving DecidableEq, Repr

/-- Admission bookkeeping: the `active_connections` counter and the number
of live (registered, not yet closed) sessions. -/
structure AdmState where
  count : Nat
  live : Nat
deriving DecidableEq, Repr

/-- One admission step. On `connect`, run `add_connection`. On `close`,
the code only logs (`EisRequest::Disconnect` at `eis.rs:377-379`, protocol
errors at `eis.rs:114-117`): no code path outside `add_connection` ever
touches `active_connections`, so the counter is unchanged; the session
itself ends, so `live` drops. -/
def admStep (s : AdmState) : AdmOp → AdmState
  | .connect env =>
    let r := add_connection s.count env
    { count := r.1, live := if r.2.1 then s.live + 1 else s.live }
  | .close => { count := s.count, live := s.live - 1 }

/-- Run a sequence of admission happenings from the initial state
(counter 0, no sessions). -/
def admRun (ops : List AdmOp) : AdmState := ops.foldl admStep ⟨0, 0⟩

/-! ## Concrete host state used by witnesses -/

/-- A concrete host state: one output at `(0,0)` of size `100 × 100`,
pointer at `(50, 50)`, clock at `5`, all input handles present, a two-byte
compiled keymap, and a failing seal step. -/
def stW : HostState where
  clockNowMillis := 5
  hasKeyboard := true
  hasPointer := true
  hasTouch := true
  pointerX := 50
  pointerY := 50
  outputs := [⟨0, 0, 100, 100⟩]
  activeOutput := ⟨0, 0, 100, 100⟩
  xkb := { compiledKeymap := some [65, 66], memfdCreateOk := true,
           writeOk := true, sealOk := false }
  deviceHasKeyboardInterface := true

/-! ## Admission invariant -/

/-- Bookkeeping invariant: live sessions never exceed the counter, and the
counter never exceeds the cap. -/
def admInv (s : AdmState) : Prop :=
  s.live ≤ s.count ∧ s.count ≤ MAX_EIS_CONNECTIONS

lemma admStep_preserves_inv (s : AdmState) (op : AdmOp) (h : admInv s) :
    admInv (admStep s op) := by
  obtain ⟨h1, h2⟩ := h
  cases op with
  | close => exact ⟨le_trans (Nat.sub_le _ _) h1, h2⟩
  | connect env =>
    obtain ⟨co, io⟩ := env
    by_cases hc : MAX_EIS_CONNECTIONS ≤ s.count
    · constructor <;> simp [admStep, add_connection, hc] <;> omega
    · cases co <;> cases io <;>
        (constructor <;> simp [admStep, add_connection, hc] <;> omega)

lemma admRun_inv (ops : List AdmOp) : admInv (admRun ops) := by
  have h : ∀ s : AdmState, admInv s → admInv (ops.foldl admStep s) := by
    induction ops with
    | nil => exact fun s hs => hs
    | cons op rest ih => exact fun s hs => ih _ (admStep_preserves_inv s op hs)
  exact h ⟨0, 0⟩ ⟨Nat.le_refl 0, by decide⟩

/-! ## Claims about the admission controller -/

/-- Claim C2: for every sequence of `add_connection` calls and session
closes, the number of live sessions never exceeds the cap of 8; and when
the counter is already at the cap, a new connection is rejected with the
counter unchanged and without the EIS protocol context ever being
created. -/
theorem connection_cap_enforced (ops : List AdmOp) (count : Nat)
    (env : AddConnEnv) (h : MAX_EIS_CONNECTIONS ≤ count) :
    (admRun ops).live ≤ MAX_EIS_CONNECTIONS ∧
    add_connection count env = (count, false, [AdmEvent.rejected]) ∧
    AdmEvent.contextAttempt ∉ (add_connection count env).2.2 := by
  refine ⟨le_trans (admRun_inv ops).1 (admRun_inv ops).2, ?_, ?_⟩ <;>
    simp [add_connection, h]

/-- Witness for C2 at a concrete history and a counter at the cap. -/
theorem connection_cap_enforced_witness :
    MAX_EIS_CONNECTIONS ≤ 8 ∧
    ((admRun [AdmOp.connect ⟨true, true⟩, AdmOp.close]).live ≤ MAX_EIS_CONNECTIONS ∧
     add_connection 8 ⟨true, true⟩ = (8, false, [AdmEvent.rejected]) ∧
     AdmEvent.contextAttempt ∉ (add_connection 8 ⟨true, true⟩).2.2) :=
  ⟨by decide,
   connection_cap_enforced [AdmOp.connect ⟨true, true⟩, AdmOp.close] 8
     ⟨true, true⟩ (by decide)⟩

/-- Claim C1 (code bug): one successful `add_connection` takes the counter
from 0 to 1, and the subsequent session close leaves it at 1 — the
`Disconnect` branch of `process_eis_request` performs no host call and no
counter decrement (the only `fetch_sub` calls in the code are the two
setup-failure paths inside `add_connection`) — instead of returning the
counter to its prior value 0 as the claim requires. -/
theorem admit_then_close_leaves_counter_raised :
    (admRun [AdmOp.connect ⟨true, true⟩, AdmOp.close]).count = 1 ∧
    (∀ st : HostState, process_eis_request st EisRequest.disconnect = []) :=
  ⟨rfl, fun _ => rfl⟩

/-- Claim C10: when `add_connection` admits a connection (counter below the
cap) but setup then fails — `eis::Context::new` or `insert_source` — the
call leaves the counter exactly as it was, registers no session, and the
failure happened after the context-creation attempt (past admission). -/
theorem failed_setup_restores_counter (count : Nat) (env : AddConnEnv)
    (hcount : count < MAX_EIS_CONNECTIONS)
    (henv : env.contextOk = false ∨ env.insertOk = false) :
    (add_connection count env).1 = count ∧
    (add_connection count env).2.1 = false ∧
    AdmEvent.contextAttempt ∈ (add_connection count env).2.2 := by
  obtain ⟨co, io⟩ := env
  cases co <;> cases io <;>
    simp_all [add_connection, Nat.not_le.mpr hcount]

/-- Witness for C10: a failing `insert_source` at counter 3. -/
theorem failed_setup_restores_counter_witness :
    3 < MAX_EIS_CONNECTIONS ∧
    ((⟨true, false⟩ : AddConnEnv).contextOk = false ∨
     (⟨true, false⟩ : AddConnEnv).insertOk = false) ∧
    ((add_connection 3 ⟨true, false⟩).1 = 3 ∧
     (add_connection 3 ⟨true, false⟩).2.1 = false ∧
     AdmEvent.contextAttempt ∈ (add_connection 3 ⟨true, false⟩).2.2) :=
  ⟨by decide, by decide,
   failed_setup_restores_counter 3 ⟨true, false⟩ (by decide) (by decide)⟩

/-! ## Claims about the request translator -/

/-- Claim C4: a keyboard-key or button request whose code exceeds `0x2FF`
produces zero host injection calls; a key request with the in-range code
`0x010` produces exactly one key injection call. -/
theorem keycode_range_validation (st : HostState) (k : KeyboardKeyReq)
    (b : ButtonReq) (g : KeyboardKeyReq)
    (hk : MAX_EVDEV_KEYCODE < k.key) (hb : MAX_EVDEV_KEYCODE < b.button)
    (hkb : st.hasKeyboard = true) (hg : g.key = 0x10) :
    process_eis_request st (.keyboardKey k) = [] ∧
    process_eis_request st (.button b) = [] ∧
    (process_eis_request st (.keyboardKey g)).countP HostCall.isKeyInjection = 1 := by
  have hginr : ¬ MAX_EVDEV_KEYCODE < g.key := by
    rw [hg]; decide
  refine ⟨?_, ?_, ?_⟩
  · simp [process_eis_request, hk]
  · simp [process_eis_request, hb]
  · simp [process_eis_request, hginr, hkb, HostCall.isKeyInjection]

/-- Witness for C4: keycode `0x300` and button `0x300` dropped, keycode
`0x010` injected once, in the concrete host state. -/
theorem keycode_range_validation_witness :
    MAX_EVDEV_KEYCODE < 0x300 ∧ stW.hasKeyboard = true ∧
    (process_eis_request stW (.keyboardKey ⟨0x300, true, 0⟩) = [] ∧
     process_eis_request stW (.button ⟨0x300, true, 0⟩) = [] ∧
     (process_eis_request stW (.keyboardKey ⟨0x10, true, 0⟩)).countP
       HostCall.isKeyInjection = 1) :=
  ⟨by decide, rfl,
   keycode_range_validation stW ⟨0x300, true, 0⟩ ⟨0x300, true, 0⟩
     ⟨0x10, true, 0⟩ (by decide) (by decide) rfl rfl⟩

/-- Claim C5: a relative-motion, absolute-motion or scroll request with any
NaN or infinite coordinate produces zero host injection calls. -/
theorem nonfinite_motion_dropped (st : HostState) (r : PointerMotionReq)
    (a : PointerMotionAbsReq) (s : ScrollDeltaReq)
    (hr : r.dx.isFinite = false ∨ r.dy.isFinite = false)
    (ha : a.dx_absolute.isFinite = false ∨ a.dy_absolute.isFinite = false)
    (hs : s.dx.isFinite = false ∨ s.dy.isFinite = false) :
    process_eis_request st (.pointerMotion r) = [] ∧
    process_eis_request st (.pointerMotionAbsolute a) = [] ∧
    process_eis_request st (.scrollDelta s) = [] := by
  refine ⟨?_, ?_, ?_⟩
  · rcases hr with h | h <;> simp [process_eis_request, h]
  · rcases ha with h | h <;> simp [process_eis_request, h]
  · rcases hs with h | h <;> simp [process_eis_request, h]

/-- Witness for C5: NaN relative delta, +inf absolute coordinate, -inf
scroll delta, all dropped. -/
theorem nonfinite_motion_dropped_witness :
    ((EFloat.nan).isFinite = false ∨ (EFloat.finite 0).isFinite = false) ∧
    (process_eis_request stW (.pointerMotion ⟨.nan, .finite 0, 0⟩) = [] ∧
     process_eis_request stW (.pointerMotionAbsolute ⟨.posInf, .finite 0, 0⟩) = [] ∧
     process_eis_request stW (.scrollDelta ⟨.finite 0, .negInf, 0⟩) = []) :=
  ⟨Or.inl rfl,
   nonfinite_motion_dropped stW ⟨.nan, .finite 0, 0⟩ ⟨.posInf, .finite 0, 0⟩
     ⟨.finite 0, .negInf, 0⟩ (Or.inl rfl) (Or.inl rfl) (Or.inr rfl)⟩

/-- Claim C6: touch-down and touch-motion requests whose touch id exceeds
256 produce zero host injection calls; touch-up and touch-cancel are
delivered regardless of the touch id. -/
theorem touch_id_validation (st : HostState) (d : TouchDownReq)
    (m : TouchMotionReq) (u : TouchUpReq) (c : TouchCancelReq)
    (hd : MAX_TOUCH_ID < d.touch_id) (hm : MAX_TOUCH_ID < m.touch_id)
    (ht : st.hasTouch = true) :
    process_eis_request st (.touchDown d) = [] ∧
    process_eis_request st (.touchMotion m) = [] ∧
    process_eis_request st (.touchUp u) =
      [.touchUp u.touch_id st.clockNowMillis, .touchFrame] ∧
    process_eis_request st (.touchCancel c) = [.touchCancel, .touchFrame] := by
  refine ⟨?_, ?_, ?_, ?_⟩
  · simp [process_eis_request, hd]
  · simp [process_eis_request, hm]
  · simp [process_eis_request, ht]
  · simp [process_eis_request, ht]

/-- Witness for C6: touch id 1000 dropped for down/motion, touch id 1000
(never seen by any down) still delivered for up, cancel delivered. -/
theorem touch_id_validation_witness :
    MAX_TOUCH_ID < 1000 ∧ stW.hasTouch = true ∧
    (process_eis_request stW (.touchDown ⟨1000, .finite 1, .finite 1, 0⟩) = [] ∧
     process_eis_request stW (.touchMotion ⟨1000, .finite 1, .finite 1, 0⟩) = [] ∧
     process_eis_request stW (.touchUp ⟨1000, 0⟩) =
       [.touchUp 1000 stW.clockNowMillis, .touchFrame] ∧
     process_eis_request stW (.touchCancel ⟨7, 0⟩) = [.touchCancel, .touchFrame]) :=
  ⟨by decide, rfl,
   touch_id_validation stW ⟨1000, .finite 1, .finite 1, 0⟩
     ⟨1000, .finite 1, .finite 1, 0⟩ ⟨1000, 0⟩ ⟨7, 0⟩
     (by decide) (by decide) rfl⟩

/-- Claim C3 (amended): a relative motion with finite deltas injects the
clamped location, which lies within the chosen output's
`[x0, x0+w-1] × [y0, y0+h-1]` whenever that output has positive size. -/
theorem relative_motion_clamped_to_output (st : HostState)
    (e : PointerMotionReq)
    (h1 : e.dx.isFinite = true) (h2 : e.dy.isFinite = true)
    (hp : st.hasPointer = true)
    (hw : 1 ≤ (relOutput st e).w) (hh : 1 ≤ (relOutput st e).h) :
    process_eis_request st (.pointerMotion e) =
      [.pointerMotion (relClampedPos st e).1 (relClampedPos st e).2
         st.clockNowMillis, .pointerFrame] ∧
    ((relOutput st e).x0 : ℚ) ≤ (relClampedPos st e).1 ∧
    (relClampedPos st e).1 ≤
      (((relOutput st e).x0 + (relOutput st e).w - 1 : Int) : ℚ) ∧
    ((relOutput st e).y0 : ℚ) ≤ (relClampedPos st e).2 ∧
    (relClampedPos st e).2 ≤
      (((relOutput st e).y0 + (relOutput st e).h - 1 : Int) : ℚ) := by
  have hxlo : ((relOutput st e).x0 : ℚ) ≤
      (((relOutput st e).x0 + (relOutput st e).w - 1 : Int) : ℚ) := by
    have hle : (relOutput st e).x0 ≤ (relOutput st e).x0 + (relOutput st e).w - 1 := by
      omega
    exact_mod_cast hle
  have hylo : ((relOutput st e).y0 : ℚ) ≤
      (((relOutput st e).y0 + (relOutput st e).h - 1 : Int) : ℚ) := by
    have hle : (relOutput st e).y0 ≤ (relOutput st e).y0 + (relOutput st e).h - 1 := by
      omega
    exact_mod_cast hle
  refine ⟨by simp [process_eis_request, h1, h2, hp], ?_, ?_, ?_, ?_⟩
  · simp only [relClampedPos, clampToRect, ratClamp]
    exact le_max_left _ _
  · simp only [relClampedPos, clampToRect, ratClamp]
    exact max_le hxlo (min_le_right _ _)
  · simp only [relClampedPos, clampToRect, ratClamp]
    exact le_max_left _ _
  · simp only [relClampedPos, clampToRect, ratClamp]
    exact max_le hylo (min_le_right _ _)

/-- Witness for C3 (amended): from `(50, 50)` a delta of `(100, 0)` targets
`(150, 50)`, which is outside the single `100 × 100` output, so the
injected location is clamped to `(99, 50)` inside it. -/
theorem relative_motion_clamped_to_output_witness :
    ((EFloat.finite 100).isFinite = true ∧
     (EFloat.finite 0).isFinite = true ∧ stW.hasPointer = true ∧
     1 ≤ (relOutput stW ⟨.finite 100, .finite 0, 0⟩).w ∧
     1 ≤ (relOutput stW ⟨.finite 100, .finite 0, 0⟩).h) ∧
    (process_eis_request stW (.pointerMotion ⟨.finite 100, .finite 0, 0⟩) =
      [.pointerMotion (relClampedPos stW ⟨.finite 100, .finite 0, 0⟩).1
         (relClampedPos stW ⟨.finite 100, .finite 0, 0⟩).2
         stW.clockNowMillis, .pointerFrame] ∧
     ((relOutput stW ⟨.finite 100, .finite 0, 0⟩).x0 : ℚ) ≤
       (relClampedPos stW ⟨.finite 100, .finite 0, 0⟩).1 ∧
     (relClampedPos stW ⟨.finite 100, .finite 0, 0⟩).1 ≤
       (((relOutput stW ⟨.finite 100, .finite 0, 0⟩).x0 +
         (relOutput stW ⟨.finite 100, .finite 0, 0⟩).w - 1 : Int) : ℚ) ∧
     ((relOutput stW ⟨.finite 100, .finite 0, 0⟩).y0 : ℚ) ≤
       (relClampedPos stW ⟨.finite 100, .finite 0, 0⟩).2 ∧
     (relClampedPos stW ⟨.finite 100, .finite 0, 0⟩).2 ≤
       (((relOutput stW ⟨.finite 100, .finite 0, 0⟩).y0 +
         (relOutput stW ⟨.finite 100, .finite 0, 0⟩).h - 1 : Int) : ℚ)) :=
  by
  have hout : relOutput stW ⟨.finite 100, .finite 0, 0⟩ = ⟨0, 0, 100, 100⟩ := by
    norm_num [relOutput, chosenOutput, relTargetPos, stW, Rect.containsPt,
      EFloat.toRat]
  exact ⟨⟨rfl, rfl, rfl, by rw [hout]; decide, by rw [hout]; decide⟩,
    relative_motion_clamped_to_output stW ⟨.finite 100, .finite 0, 0⟩
      rfl rfl rfl (by rw [hout]; decide) (by rw [hout]; decide)⟩

/-- Claim C3 counterexample: an absolute motion to the finite point
`(1000, 1000)` — outside the only output, whose geometry is
`[0, 99] × [0, 99]` and which is also the fallback active output — is
injected at `(1000, 1000)` unclamped, violating the claim that every
motion event's injected location lies within the chosen output's
geometry. -/
theorem absolute_motion_injected_unclamped :
    process_eis_request stW
        (.pointerMotionAbsolute ⟨.finite 1000, .finite 1000, 0⟩) =
      [HostCall.pointerMotion 1000 1000 5, HostCall.pointerFrame] ∧
    chosenOutput stW 1000 1000 = stW.activeOutput ∧
    ¬ ((1000 : ℚ) ≤ ((stW.activeOutput.x0 + stW.activeOutput.w - 1 : Int) : ℚ)) := by
  refine ⟨by decide, by decide, by decide⟩

/-! ## Claims about bind handling and the keymap provider -/

/-- Claim C7: for a bind with keyboard capability whose keymap compilation
(and memfd setup) succeeds, the keymap transfer is observed strictly
before the device's resumed signal; and when keymap compilation fails the
device is nevertheless still resumed. -/
theorem bind_keymap_before_resumed (st : HostState) (e : BindReq)
    (bs : List Nat)
    (hcap : e.hasKeyboardCap = true)
    (hc : st.xkb.compiledKeymap = some bs)
    (hm : st.xkb.memfdCreateOk = true) (hw : st.xkb.writeOk = true)
    (hi : st.deviceHasKeyboardInterface = true)
    (hlen : bs.length + 1 < 2 ^ 32) :
    (∃ i j : Nat, i < j ∧
      (process_eis_request st (.bind e))[i]? =
        some (.keymapTransfer (bs.length + 1)) ∧
      (process_eis_request st (.bind e))[j]? = some .deviceResumed) ∧
    (∀ st2 : HostState, ∀ e2 : BindReq, st2.xkb.compiledKeymap = none →
      HostCall.deviceResumed ∈ process_eis_request st2 (.bind e2)) := by
  have h32 : (bs.length + 1) % 2 ^ 32 = bs.length + 1 := Nat.mod_eq_of_lt hlen
  have hlen4 : bs.length + 1 < 4294967296 := hlen.trans_le (by norm_num)
  constructor
  · have htr : process_eis_request st (.bind e) =
        [.keymapTransfer (bs.length + 1), .deviceResumed] := by
      simp [process_eis_request, prepare_xkb_keymap_fd, hcap, hc, hm, hw, hi,
        h32, hlen4]
    exact ⟨0, 1, Nat.zero_lt_one, by rw [htr]; rfl, by rw [htr]; rfl⟩
  · intro st2 e2 h2
    by_cases hcap2 : e2.hasKeyboardCap = true
    · simp [process_eis_request, prepare_xkb_keymap_fd, h2, hcap2]
    · simp [process_eis_request, hcap2]

/-- Witness for C7: a keyboard bind in the concrete host state, whose
two-byte keymap compiles; the transfer (size 3) lands at index 0, the
resumed signal at index 1. -/
theorem bind_keymap_before_resumed_witness :
    ((⟨true⟩ : BindReq).hasKeyboardCap = true ∧
     stW.xkb.compiledKeymap = some [65, 66] ∧
     stW.xkb.memfdCreateOk = true ∧ stW.xkb.writeOk = true ∧
     stW.deviceHasKeyboardInterface = true ∧
     [65, 66].length + 1 < 2 ^ 32) ∧
    ((∃ i j : Nat, i < j ∧
       (process_eis_request stW (.bind ⟨true⟩))[i]? =
         some (.keymapTransfer ([65, 66].length + 1)) ∧
       (process_eis_request stW (.bind ⟨true⟩))[j]? = some .deviceResumed) ∧
     (∀ st2 : HostState, ∀ e2 : BindReq, st2.xkb.compiledKeymap = none →
       HostCall.deviceResumed ∈ process_eis_request st2 (.bind e2))) :=
  ⟨⟨rfl, rfl, rfl, rfl, rfl, by decide⟩,
   bind_keymap_before_resumed stW ⟨true⟩ [65, 66] rfl rfl rfl rfl rfl
     (by decide)⟩

/-- Claim C8: the keymap provider returns `none` (not an error) whenever
layout compilation fails; on success it returns a fresh memory region
holding the keymap text plus exactly one trailing terminator byte,
together with a size equal to the text's byte length plus one, and a
failing seal step does not prevent the handle from being returned (the
region merely remains unsealed). -/
theorem keymap_provider_contract (env : XkbEnv) (bs : List Nat)
    (hc : env.compiledKeymap = some bs)
    (hm : env.memfdCreateOk = true) (hw : env.writeOk = true)
    (hlen : bs.length + 1 < 2 ^ 32) :
    prepare_xkb_keymap_fd env =
      some ({ content := bs ++ [0], isSealed := env.sealOk }, bs.length + 1) ∧
    (∀ env2 : XkbEnv, env2.compiledKeymap = none →
      prepare_xkb_keymap_fd env2 = none) := by
  have h32 : (bs.length + 1) % 2 ^ 32 = bs.length + 1 := Nat.mod_eq_of_lt hlen
  have hlen4 : bs.length + 1 < 4294967296 := hlen.trans_le (by norm_num)
  constructor
  · simp [prepare_xkb_keymap_fd, hc, hm, hw, h32, hlen4]
  · intro env2 h2
    simp [prepare_xkb_keymap_fd, h2]

/-- Witness for C8: the concrete xkb environment with a failing seal step
still returns the (unsealed) region and size 3. -/
theorem keymap_provider_contract_witness :
    (stW.xkb.compiledKeymap = some [65, 66] ∧
     stW.xkb.memfdCreateOk = true ∧ stW.xkb.writeOk = true ∧
     [65, 66].length + 1 < 2 ^ 32) ∧
    (prepare_xkb_keymap_fd stW.xkb =
       some ({ content := [65, 66] ++ [0], isSealed := stW.xkb.sealOk },
             [65, 66].length + 1) ∧
     (∀ env2 : XkbEnv, env2.compiledKeymap = none →
       prepare_xkb_keymap_fd env2 = none)) :=
  ⟨⟨rfl, rfl, rfl, by decide⟩,
   keymap_provider_contract stW.xkb [65, 66] rfl rfl rfl (by decide)⟩

/-! ## Claim about injected timestamps -/

lemma trace_time_none_or_clock (st : HostState) (r : EisRequest) :
    ∀ c ∈ process_eis_request st r,
      c.time? = none ∨ c.time? = some st.clockNowMillis := by
  intro c hc
  cases r <;>
    simp only [process_eis_request] at hc <;>
    (repeat' split at hc) <;>
    simp only [List.mem_append, List.mem_cons, List.not_mem_nil, or_false,
      List.nil_append, List.singleton_append] at hc <;>
    (try rcases hc with rfl | rfl) <;>
    simp [HostCall.time?]

/-- Claim C9: the timestamp of every injected event is the host monotonic
clock read at translation time, never a peer-supplied time value: two
requests differing only in their peer-supplied time field produce
identical host-call traces, and every timestamp appearing in a trace
equals the host clock value. -/
theorem injected_time_is_host_clock (st : HostState) (r : EisRequest)
    (t : Nat) :
    process_eis_request st (setReqTime r t) = process_eis_request st r ∧
    ∀ c ∈ process_eis_request st r, ∀ u : Nat,
      c.time? = some u → u = st.clockNowMillis := by
  refine ⟨by cases r <;> rfl, fun c hc u hu => ?_⟩
  rcases trace_time_none_or_clock st r c hc with h | h
  · rw [h] at hu
    exact absurd hu (by simp)
  · rw [h] at hu
    exact (Option.some.inj hu).symm

end CosmicEis
